import Mathlib

/- Verification of the MatrixOperation class of mat_operation.py.

   The class validates two input matrices, computes their matrix product with
   np.matmul, and exposes statistic queries over the cached product.  Matrices
   are embedded as a numpy-style shape together with the elements in row-major
   order; integer entries are modelled by Int and the fractional statistics
   (mean, median) by Rat.  Exceptions become an Except monad over a structured
   error type whose message function renders the exact source message strings. -/

namespace MatOp

/-- Decidable equality of Except values, so that runs of the embedded code on
concrete inputs can be checked by evaluation. -/
instance {ε α : Type} [DecidableEq ε] [DecidableEq α] : DecidableEq (Except ε α)
  | Except.ok a, Except.ok b =>
      if h : a = b then Decidable.isTrue (by rw [h]) else Decidable.isFalse (by simp [h])
  | Except.ok _, Except.error _ => Decidable.isFalse (by simp)
  | Except.error _, Except.ok _ => Decidable.isFalse (by simp)
  | Except.error e, Except.error f =>
      if h : e = f then Decidable.isTrue (by rw [h]) else Decidable.isFalse (by simp [h])

/-- Embedding of a numpy ndarray of integers: its shape together with its
elements in row-major order. -/
structure NPArray where
  shape : List Nat
  data : List Int
  deriving DecidableEq, Repr

/-- Embedding of np.size: the total element count, the product of the shape. -/
def npSize (m : NPArray) : Nat := m.shape.prod

/-- Embedding of len(np.shape(m)): the number of dimensions. -/
def NPArray.ndim (m : NPArray) : Nat := m.shape.length

/-- Embedding of np.shape(m)[0] on a 2-D array. -/
def NPArray.rows (m : NPArray) : Nat := m.shape.getD 0 0

/-- Embedding of np.shape(m)[1] on a 2-D array. -/
def NPArray.cols (m : NPArray) : Nat := m.shape.getD 1 0

/-- Element (i, j) of a 2-D array stored in row-major order. -/
def NPArray.entry (m : NPArray) (i j : Nat) : Int := m.data.getD (i * m.cols + j) 0

/-- Construction of the 2-D array with r rows and c columns whose entry at
(i, j) is f i j. -/
def mkMat (r c : Nat) (f : Nat → Nat → Int) : NPArray :=
  ⟨[r, c], ((List.range r).map (fun i => (List.range c).map (f i))).flatten⟩

/-- Embedding of np.matmul on 2-D integer arrays. -/
def matmul (A B : NPArray) : NPArray :=
  mkMat A.rows B.cols (fun i j =>
    ((List.range A.cols).map (fun t => A.entry i t * B.entry t j)).sum)

/-- Embedding of the numpy column slice m[:, j], reached only after the column
index was checked to be in range. -/
def NPArray.colSlice (m : NPArray) (j : Nat) : List Int :=
  (List.range m.rows).map (fun i => m.entry i j)

/-- Embedding of the numpy row slice m[i, :], reached only after the row index
was checked to be in range. -/
def NPArray.rowSlice (m : NPArray) (i : Nat) : List Int :=
  (List.range m.cols).map (fun j => m.entry i j)

/-- Structured form of the MatrixOperationError values raised by the class; the
message function below renders the exact source message for each of them. -/
inductive MatErr where
  | badDims (dims : Nat) (order : String)
  | emptyMatrix (order : String)
  | badDimSize (dim i : Nat) (order : String)
  | shapeMismatch (aCols bRows : Nat)
  | colOutOfBounds (index : Int) (bound : Nat)
  | rowOutOfBounds (index : Int) (bound : Nat)
  deriving DecidableEq, Repr

/-- Message strings of MatrixOperationError exactly as the source formats them,
including the doubled spaces produced by the adjacent string literals in the
shape-mismatch message.  Appends are grouped so that the constant prefix is the
left operand of the outermost append. -/
def MatErr.message : MatErr → String
  | .badDims dims order =>
      "Invalid number of dimensions (" ++
        (toString dims ++ (") of " ++ (order ++ " matrix. Must be exactly 2.")))
  | .emptyMatrix order =>
      "Input for " ++ (order ++ " matrix is empty.")
  | .badDimSize dim i order =>
      "Invalid dimension size of " ++
        (toString dim ++ (" for dimension " ++ (toString i ++
          (" of " ++ (order ++ " matrix. Must be <= 10.")))))
  | .shapeMismatch aCols bRows =>
      "Invalid matrix sizes to allow for multiplication. First  matrix columns (" ++
        (toString aCols ++ (") does not match second  matrix rows (" ++
          (toString bRows ++ ").")))
  | .colOutOfBounds index bound =>
      "Column number (" ++
        (toString index ++ (") is out of bounds of product matrix. Must be in [0," ++
          (toString bound ++ ").")))
  | .rowOutOfBounds index bound =>
      "Row number (" ++
        (toString index ++ (") is out of bounds of product matrix. Must be in [0," ++
          (toString bound ++ ").")))

/-- Embedding of the loop for i, dim in enumerate(shape) that raises on the
first dimension greater than 10, scanning axes in ascending order; start is the
index of the first axis still to check. -/
def checkDims (order : String) (start : Nat) : List Nat → Except MatErr Unit
  | [] => Except.ok ()
  | dim :: rest =>
      if 10 < dim then Except.error (MatErr.badDimSize dim start order)
      else checkDims order (start + 1) rest

/-- Embedding of MatrixOperation.__verifyMatrixProperties: exactly 2 dimensions,
then non-empty, then no axis greater than 10, failing on the first violation. -/
def verifyMatrixProperties (matrix : NPArray) (order : String) : Except MatErr Unit :=
  let shape := matrix.shape
  let size := npSize matrix
  let dims := shape.length
  if dims ≠ 2 then Except.error (MatErr.badDims dims order)
  else if size = 0 then Except.error (MatErr.emptyMatrix order)
  else checkDims order 0 shape

/-- State of a successfully constructed MatrixOperation object. -/
structure MatrixOperation where
  name : String
  matrixA : NPArray
  matrixB : NPArray
  product : NPArray
  valid : Bool
  deriving DecidableEq, Repr

/-- The class constant MatrixOperation.ROW. -/
def ROW : Nat := 0

/-- The class constant MatrixOperation.COL. -/
def COL : Nat := 1

/-- Embedding of MatrixOperation.__init__: validate matrixA fully, then
matrixB, then the multiplication compatibility of the shapes; on success cache
the product and mark the object valid. -/
def make (name : String) (matrixA matrixB : NPArray) : Except MatErr MatrixOperation := do
  verifyMatrixProperties matrixA ("first")
  verifyMatrixProperties matrixB ("second")
  let matrixACol := matrixA.shape.getD 1 0
  let matrixBRow := matrixB.shape.getD 0 0
  if matrixACol ≠ matrixBRow then
    Except.error (MatErr.shapeMismatch matrixACol matrixBRow)
  else
    Except.ok ⟨name, matrixA, matrixB, matmul matrixA matrixB, true⟩

/-- Property MatrixOperation.productShape. -/
def MatrixOperation.productShape (op : MatrixOperation) : List Nat := op.product.shape

/-- Property MatrixOperation.productRows. -/
def MatrixOperation.productRows (op : MatrixOperation) : Nat := op.productShape.getD 0 0

/-- Property MatrixOperation.productCols. -/
def MatrixOperation.productCols (op : MatrixOperation) : Nat := op.productShape.getD 1 0

/-- The numpy function handles the class passes to __getProductStatistic. -/
inductive StatKind where
  | sum | prod | cumsum | cumprod | mean | median | min | max
  deriving DecidableEq, Repr

/-- Data a statistic function is applied to: the whole 2-D product matrix or a
1-D row or column slice of it. -/
inductive NPData where
  | whole (m : NPArray)
  | slice (v : List Int)
  deriving DecidableEq, Repr

/-- Possible numpy results: an integer scalar, a rational scalar (mean and
median), a 1-D vector, or a 2-D matrix. -/
inductive StatResult where
  | int (z : Int)
  | rat (q : Rat)
  | vec (v : List Int)
  | mat (m : NPArray)
  deriving DecidableEq, Repr

/-- Minimum of the elements, per np.min on a non-empty array. -/
def npMinList : List Int → Int
  | [] => 0
  | x :: xs => xs.foldl min x

/-- Maximum of the elements, per np.max on a non-empty array. -/
def npMaxList : List Int → Int
  | [] => 0
  | x :: xs => xs.foldl max x

/-- Mean per np.mean: the sum of the elements over their count. -/
def npMeanList (l : List Int) : Rat := (l.sum : Rat) / (l.length : Rat)

/-- Median per np.median: the middle of the sorted data, averaging the two
middle values when the count is even. -/
def npMedianList (l : List Int) : Rat :=
  let s := List.insertionSort (fun a b => a ≤ b) l
  let n := s.length
  if n % 2 = 1 then ((s.getD (n / 2) 0 : Int) : Rat)
  else (((s.getD (n / 2 - 1) 0 : Int) : Rat) + ((s.getD (n / 2) 0 : Int) : Rat)) / 2

/-- Running accumulation used by np.cumsum and np.cumprod on 1-D data. -/
def cumList (f : Int → Int → Int) (acc : Int) : List Int → List Int
  | [] => []
  | x :: xs => f acc x :: cumList f (f acc x) xs

/-- Embedding of np.cumsum(m, axis=0): same shape, entry (i, j) sums column j
through row i. -/
def cumsumAxis0 (m : NPArray) : NPArray :=
  mkMat m.rows m.cols (fun i j => ((List.range (i + 1)).map (fun t => m.entry t j)).sum)

/-- Embedding of np.cumsum(m, axis=1): same shape, entry (i, j) sums row i
through column j. -/
def cumsumAxis1 (m : NPArray) : NPArray :=
  mkMat m.rows m.cols (fun i j => ((List.range (j + 1)).map (fun t => m.entry i t)).sum)

/-- Embedding of np.cumprod(m, axis=0). -/
def cumprodAxis0 (m : NPArray) : NPArray :=
  mkMat m.rows m.cols (fun i j => ((List.range (i + 1)).map (fun t => m.entry t j)).prod)

/-- Embedding of np.cumprod(m, axis=1). -/
def cumprodAxis1 (m : NPArray) : NPArray :=
  mkMat m.rows m.cols (fun i j => ((List.range (j + 1)).map (fun t => m.entry i t)).prod)

/-- Application statFunc(matrix, axis=axis) for each function handle the class
passes.  The class only produces the combinations: sum and prod on a slice with
axis None; cumsum and cumprod on the whole product with axis 0 or 1; mean,
median, min and max on the whole product with axis None.  The remaining
combinations follow numpy where meaningful and are never reached. -/
def applyStat (k : StatKind) (d : NPData) (axis : Option Nat) : StatResult :=
  match k, d, axis with
  | .sum, .slice v, _ => .int v.sum
  | .sum, .whole m, none => .int m.data.sum
  | .sum, .whole m, some 0 => .vec ((List.range m.cols).map (fun j => (m.colSlice j).sum))
  | .sum, .whole m, some _ => .vec ((List.range m.rows).map (fun i => (m.rowSlice i).sum))
  | .prod, .slice v, _ => .int v.prod
  | .prod, .whole m, none => .int m.data.prod
  | .prod, .whole m, some 0 => .vec ((List.range m.cols).map (fun j => (m.colSlice j).prod))
  | .prod, .whole m, some _ => .vec ((List.range m.rows).map (fun i => (m.rowSlice i).prod))
  | .cumsum, .slice v, _ => .vec (cumList (fun a b => a + b) 0 v)
  | .cumsum, .whole m, none => .vec (cumList (fun a b => a + b) 0 m.data)
  | .cumsum, .whole m, some 0 => .mat (cumsumAxis0 m)
  | .cumsum, .whole m, some _ => .mat (cumsumAxis1 m)
  | .cumprod, .slice v, _ => .vec (cumList (fun a b => a * b) 1 v)
  | .cumprod, .whole m, none => .vec (cumList (fun a b => a * b) 1 m.data)
  | .cumprod, .whole m, some 0 => .mat (cumprodAxis0 m)
  | .cumprod, .whole m, some _ => .mat (cumprodAxis1 m)
  | .mean, .slice v, _ => .rat (npMeanList v)
  | .mean, .whole m, _ => .rat (npMeanList m.data)
  | .median, .slice v, _ => .rat (npMedianList v)
  | .median, .whole m, _ => .rat (npMedianList m.data)
  | .min, .slice v, _ => .int (npMinList v)
  | .min, .whole m, _ => .int (npMinList m.data)
  | .max, .slice v, _ => .int (npMaxList v)
  | .max, .whole m, _ => .int (npMaxList m.data)

/-- Embedding of MatrixOperation.__getProductStatistic: select the whole
product or one row or column of it after a bounds check, then apply the
statistic function with the axis the direction determines. -/
def MatrixOperation.getProductStatistic (op : MatrixOperation) (statFunc : StatKind)
    (direction : Option Nat := none) (index : Option Int := none) :
    Except MatErr StatResult :=
  if direction = some COL then
    match index with
    | some idx =>
        if idx < 0 ∨ (op.productCols : Int) ≤ idx then
          Except.error (MatErr.colOutOfBounds idx op.productCols)
        else
          Except.ok (applyStat statFunc (NPData.slice (op.product.colSlice idx.toNat)) none)
    | none => Except.ok (applyStat statFunc (NPData.whole op.product) (some 0))
  else if direction = some ROW then
    match index with
    | some idx =>
        if idx < 0 ∨ (op.productRows : Int) ≤ idx then
          Except.error (MatErr.rowOutOfBounds idx op.productRows)
        else
          Except.ok (applyStat statFunc (NPData.slice (op.product.rowSlice idx.toNat)) none)
    | none => Except.ok (applyStat statFunc (NPData.whole op.product) (some 1))
  else
    Except.ok (applyStat statFunc (NPData.whole op.product) none)

/-- Embedding of MatrixOperation.getProductColSum. -/
def MatrixOperation.getProductColSum (op : MatrixOperation) (colNum : Int) :
    Except MatErr StatResult :=
  op.getProductStatistic StatKind.sum (some COL) (some colNum)

/-- Embedding of MatrixOperation.getProductColProd. -/
def MatrixOperation.getProductColProd (op : MatrixOperation) (colNum : Int) :
    Except MatErr StatResult :=
  op.getProductStatistic StatKind.prod (some COL) (some colNum)

/-- Embedding of MatrixOperation.getProductColCumSum. -/
def MatrixOperation.getProductColCumSum (op : MatrixOperation) :
    Except MatErr StatResult :=
  op.getProductStatistic StatKind.cumsum (some COL) none

/-- Embedding of MatrixOperation.getProductColCumProd. -/
def MatrixOperation.getProductColCumProd (op : MatrixOperation) :
    Except MatErr StatResult :=
  op.getProductStatistic StatKind.cumprod (some COL) none

/-- Embedding of MatrixOperation.getProductRowSum. -/
def MatrixOperation.getProductRowSum (op : MatrixOperation) (rowNum : Int) :
    Except MatErr StatResult :=
  op.getProductStatistic StatKind.sum (some ROW) (some rowNum)

/-- Embedding of MatrixOperation.getProductRowProd. -/
def MatrixOperation.getProductRowProd (op : MatrixOperation) (rowNum : Int) :
    Except MatErr StatResult :=
  op.getProductStatistic StatKind.prod (some ROW) (some rowNum)

/-- Embedding of MatrixOperation.getProductRowCumSum. -/
def MatrixOperation.getProductRowCumSum (op : MatrixOperation) :
    Except MatErr StatResult :=
  op.getProductStatistic StatKind.cumsum (some ROW) none

/-- Embedding of MatrixOperation.getProductRowCumProd. -/
def MatrixOperation.getProductRowCumProd (op : MatrixOperation) :
    Except MatErr StatResult :=
  op.getProductStatistic StatKind.cumprod (some ROW) none

/-- Embedding of MatrixOperation.getProductTotalSum. -/
def MatrixOperation.getProductTotalSum (op : MatrixOperation) :
    Except MatErr StatResult :=
  op.getProductStatistic StatKind.sum none none

/-- Embedding of MatrixOperation.getProductTotalProd. -/
def MatrixOperation.getProductTotalProd (op : MatrixOperation) :
    Except MatErr StatResult :=
  op.getProductStatistic StatKind.prod none none

/-- Embedding of MatrixOperation.getProductTotalMean. -/
def MatrixOperation.getProductTotalMean (op : MatrixOperation) :
    Except MatErr StatResult :=
  op.getProductStatistic StatKind.mean none none

/-- Embedding of MatrixOperation.getProductTotalMedian. -/
def MatrixOperation.getProductTotalMedian (op : MatrixOperation) :
    Except MatErr StatResult :=
  op.getProductStatistic StatKind.median none none

/-- Embedding of MatrixOperation.getProductTotalMin. -/
def MatrixOperation.getProductTotalMin (op : MatrixOperation) :
    Except MatErr StatResult :=
  op.getProductStatistic StatKind.min none none

/-- Embedding of MatrixOperation.getProductTotalMax. -/
def MatrixOperation.getProductTotalMax (op : MatrixOperation) :
    Except MatErr StatResult :=
  op.getProductStatistic StatKind.max none none

/-- Method-call view of __getProductStatistic on a receiver object: the result
together with the post-state of the receiver.  The method body assigns no
attribute, so the post-state is the receiver itself. -/
def MatrixOperation.getProductStatisticSt (op : MatrixOperation) (statFunc : StatKind)
    (direction : Option Nat) (index : Option Int) :
    Except MatErr StatResult × MatrixOperation :=
  (op.getProductStatistic statFunc direction index, op)

/-- The concrete first matrix of the specification scenario. -/
def matA : NPArray := ⟨[3, 3], [1, 2, 3, 4, 5, 6, 7, 8, 9]⟩

/-- The concrete second matrix of the specification scenario. -/
def matB : NPArray := ⟨[3, 2], [0, 9, 8, -8, 3, 6]⟩

/-- The MatrixOperation object the specification scenario constructs. -/
def opAB : MatrixOperation := ⟨"ops", matA, matB, matmul matA matB, true⟩

end MatOp

namespace MatOp

/-- Element i of the map of a function over List.range r, for i below r. -/
theorem map_range_getD {α : Type} (r : Nat) (g : Nat → α) (d : α) (i : Nat) (h : i < r) :
    ((List.range r).map g).getD i d = g i := by
  simp [List.getD_eq_getElem?_getD, List.getElem?_map, List.getElem?_range, h]

/-- Row-major indexing into the flattening of a list of rows of equal width c. -/
theorem flatten_uniform_getD (c : Nat) :
    ∀ (l : List (List Int)) (i j : Nat), (∀ a ∈ l, a.length = c) →
      i < l.length → j < c →
      l.flatten.getD (i * c + j) 0 = (l.getD i []).getD j 0 := by
  intro l
  induction l with
  | nil => intro i j _ hi _; exact absurd hi (by simp)
  | cons x xs ih =>
      intro i j hlen hi hj
      cases i with
      | zero =>
          have hx : x.length = c := hlen x (by simp)
          simp only [List.flatten_cons, Nat.zero_mul, Nat.zero_add, List.getD_cons_zero]
          exact List.getD_append x xs.flatten 0 j (by rw [hx]; exact hj)
      | succ i =>
          have hx : x.length = c := hlen x (by simp)
          have hge : x.length ≤ (i + 1) * c + j := by
            rw [hx]; calc c ≤ (i + 1) * c := Nat.le_mul_of_pos_left c (Nat.succ_pos i)
              _ ≤ (i + 1) * c + j := Nat.le_add_right _ _
          simp only [List.flatten_cons, List.getD_cons_succ]
          rw [List.getD_append_right x xs.flatten 0 ((i + 1) * c + j) hge]
          have harith : (i + 1) * c + j - x.length = i * c + j := by
            rw [hx]; rw [Nat.succ_mul]; omega
          rw [harith]
          exact ih i j (fun a ha => hlen a (by simp [ha])) (by simpa using hi) hj

/-- Shape of a constructed 2-D array. -/
theorem mkMat_shape (r c : Nat) (f : Nat → Nat → Int) : (mkMat r c f).shape = [r, c] := rfl

/-- Entries of a constructed 2-D array are the generating function. -/
theorem mkMat_entry (r c : Nat) (f : Nat → Nat → Int) (i j : Nat)
    (hi : i < r) (hj : j < c) : (mkMat r c f).entry i j = f i j := by
  have hcols : (mkMat r c f).cols = c := rfl
  unfold NPArray.entry
  rw [hcols]
  show (((List.range r).map (fun i => (List.range c).map (f i))).flatten).getD (i * c + j) 0 = f i j
  rw [flatten_uniform_getD c _ i j ?hlen (by simpa using hi) hj]
  case hlen =>
    intro a ha
    simp only [List.mem_map] at ha
    obtain ⟨b, _, hb⟩ := ha
    rw [← hb]; simp
  rw [map_range_getD r _ [] i hi]
  exact map_range_getD c _ 0 j hj

/-- Shape of the embedded matrix product. -/
theorem matmul_shape (A B : NPArray) : (matmul A B).shape = [A.rows, B.cols] := rfl

/-- Entries of the embedded matrix product are the standard dot products. -/
theorem matmul_entry (A B : NPArray) (i j : Nat) (hi : i < A.rows) (hj : j < B.cols) :
    (matmul A B).entry i j = ((List.range A.cols).map (fun t => A.entry i t * B.entry t j)).sum :=
  mkMat_entry A.rows B.cols _ i j hi hj

end MatOp

namespace MatOp

/-- Validation succeeds on any 2-D matrix with both dimensions in [1, 10]. -/
theorem verify_ok (A : NPArray) (ord : String) (r k : Nat) (hA : A.shape = [r, k])
    (hr1 : 1 ≤ r) (hr2 : r ≤ 10) (hk1 : 1 ≤ k) (hk2 : k ≤ 10) :
    verifyMatrixProperties A ord = Except.ok () := by
  have hr0 : r ≠ 0 := by omega
  have hk0 : k ≠ 0 := by omega
  have hrle : ¬ (10 < r) := by omega
  have hkle : ¬ (10 < k) := by omega
  simp [verifyMatrixProperties, npSize, hA, checkDims, hr0, hk0, hrle, hkle]

/-- Characterization of a successful construction: the object holds the inputs,
the cached product and the validity flag. -/
theorem make_ok_elim {name : String} {A B : NPArray} {op : MatrixOperation}
    (h : make name A B = Except.ok op) :
    op = ⟨name, A, B, matmul A B, true⟩ := by
  unfold make at h
  cases h1 : verifyMatrixProperties A ("first") with
  | error e => rw [h1] at h; simp [Bind.bind, Except.bind] at h
  | ok u =>
      rw [h1] at h
      cases h2 : verifyMatrixProperties B ("second") with
      | error e => rw [h2] at h; simp [Bind.bind, Except.bind] at h
      | ok v =>
          rw [h2] at h
          simp only [Bind.bind, Except.bind] at h
          split at h
          · exact absurd h (by simp)
          · simpa using h.symm

/-- Construction succeeds on compatibly shaped valid inputs. -/
theorem make_ok_of_shapes (name : String) (A B : NPArray) (r k c : Nat)
    (hA : A.shape = [r, k]) (hB : B.shape = [k, c])
    (hr1 : 1 ≤ r) (hr2 : r ≤ 10) (hk1 : 1 ≤ k) (hk2 : k ≤ 10)
    (hc1 : 1 ≤ c) (hc2 : c ≤ 10) :
    make name A B = Except.ok ⟨name, A, B, matmul A B, true⟩ := by
  have h1 := verify_ok A ("first") r k hA hr1 hr2 hk1 hk2
  have h2 := verify_ok B ("second") k c hB hk1 hk2 hc1 hc2
  unfold make
  rw [h1, h2]
  simp [Bind.bind, Except.bind, hA, hB]

/-- A failure of the first validation is the failure of the construction. -/
theorem make_error_left {name : String} {A B : NPArray} {e : MatErr}
    (hv : verifyMatrixProperties A ("first") = Except.error e) :
    make name A B = Except.error e := by
  unfold make
  rw [hv]
  simp [Bind.bind, Except.bind]

/-- After the first matrix validates, a failure of the second validation is the
failure of the construction. -/
theorem make_error_right {name : String} {A B : NPArray} {e : MatErr}
    (hA : verifyMatrixProperties A ("first") = Except.ok ())
    (hv : verifyMatrixProperties B ("second") = Except.error e) :
    make name A B = Except.error e := by
  unfold make
  rw [hA, hv]
  simp [Bind.bind, Except.bind]

/-- Two appends differ when their left parts differ at a position inside both. -/
theorem string_append_ne_of_get (p q s t : String) (n : Nat)
    (hp : n < p.data.length) (hq : n < q.data.length)
    (hne : p.data[n]? ≠ q.data[n]?) : p ++ s ≠ q ++ t := by
  intro h
  have hd : (p ++ s).data = (q ++ t).data := by rw [h]
  rw [String.data_append, String.data_append] at hd
  have h1 : (p.data ++ s.data)[n]? = p.data[n]? := List.getElem?_append_left hp
  have h2 : (q.data ++ t.data)[n]? = q.data[n]? := List.getElem?_append_left hq
  rw [hd] at h1
  exact hne (h1.symm.trans h2)

/-- The dimensionality message differs from the emptiness message. -/
theorem badDims_msg_ne_empty (d : Nat) (o o2 : String) :
    (MatErr.badDims d o).message ≠ (MatErr.emptyMatrix o2).message :=
  string_append_ne_of_get _ _ _ _ 2 (by decide) (by decide) (by decide)

/-- The dimensionality message differs from the size-bound message. -/
theorem badDims_msg_ne_badDimSize (d dim i : Nat) (o o2 : String) :
    (MatErr.badDims d o).message ≠ (MatErr.badDimSize dim i o2).message :=
  string_append_ne_of_get _ _ _ _ 8 (by decide) (by decide) (by decide)

/-- The emptiness message differs from the size-bound message. -/
theorem empty_msg_ne_badDimSize (dim i : Nat) (o o2 : String) :
    (MatErr.emptyMatrix o).message ≠ (MatErr.badDimSize dim i o2).message :=
  string_append_ne_of_get _ _ _ _ 2 (by decide) (by decide) (by decide)

/-- C1: for matrices A of shape r by k and B of shape k by c with r, k, c in
[1, 10], construction succeeds, and the cached product has shape (r, c) with
entry (i, j) equal to the sum over t of A[i][t] * B[t][j]. -/
theorem c1_construction_product (name : String) (A B : NPArray) (r k c : Nat)
    (hA : A.shape = [r, k]) (hB : B.shape = [k, c])
    (hr1 : 1 ≤ r) (hr2 : r ≤ 10) (hk1 : 1 ≤ k) (hk2 : k ≤ 10)
    (hc1 : 1 ≤ c) (hc2 : c ≤ 10) :
    make name A B = Except.ok ⟨name, A, B, matmul A B, true⟩ ∧
    (matmul A B).shape = [r, c] ∧
    ∀ i j, i < r → j < c →
      (matmul A B).entry i j =
        ((List.range k).map (fun t => A.entry i t * B.entry t j)).sum := by
  have hrows : A.rows = r := by simp [NPArray.rows, hA]
  have hbcols : B.cols = c := by simp [NPArray.cols, hB]
  have hacols : A.cols = k := by simp [NPArray.cols, hA]
  refine ⟨make_ok_of_shapes name A B r k c hA hB hr1 hr2 hk1 hk2 hc1 hc2, ?_, ?_⟩
  · rw [matmul_shape, hrows, hbcols]
  · intro i j hi hj
    rw [matmul_entry A B i j (by rw [hrows]; exact hi) (by rw [hbcols]; exact hj), hacols]

/-- Witness for C1 at the concrete 3 by 3 and 3 by 2 matrices of the spec. -/
theorem c1_witness :
    make ("ops") matA matB = Except.ok ⟨("ops"), matA, matB, matmul matA matB, true⟩ ∧
    (matmul matA matB).shape = [3, 2] ∧
    ∀ i j, i < 3 → j < 2 →
      (matmul matA matB).entry i j =
        ((List.range 3).map (fun t => matA.entry i t * matB.entry t j)).sum :=
  c1_construction_product ("ops") matA matB 3 3 2 (by decide) (by decide)
    (by decide) (by decide) (by decide) (by decide) (by decide) (by decide)

/-- C2: for in-bounds indices, the indexed statistic operations return the sum,
respectively the product, of the entries of the selected column or row of the
cached product. -/
theorem c2_indexed_statistics (op : MatrixOperation) (i j : Int)
    (hj0 : 0 ≤ j) (hjc : j < (op.productCols : Int))
    (hi0 : 0 ≤ i) (hir : i < (op.productRows : Int)) :
    op.getProductColSum j =
      Except.ok (.int (((List.range op.product.rows).map
        (fun t => op.product.entry t j.toNat)).sum)) ∧
    op.getProductColProd j =
      Except.ok (.int (((List.range op.product.rows).map
        (fun t => op.product.entry t j.toNat)).prod)) ∧
    op.getProductRowSum i =
      Except.ok (.int (((List.range op.product.cols).map
        (fun t => op.product.entry i.toNat t)).sum)) ∧
    op.getProductRowProd i =
      Except.ok (.int (((List.range op.product.cols).map
        (fun t => op.product.entry i.toNat t)).prod)) := by
  have hnc : ¬ (j < 0 ∨ (op.productCols : Int) ≤ j) := by omega
  have hnr : ¬ (i < 0 ∨ (op.productRows : Int) ≤ i) := by omega
  refine ⟨?_, ?_, ?_, ?_⟩ <;>
    simp [MatrixOperation.getProductColSum, MatrixOperation.getProductColProd,
      MatrixOperation.getProductRowSum, MatrixOperation.getProductRowProd,
      MatrixOperation.getProductStatistic, COL, ROW, hnc, hnr, applyStat,
      NPArray.colSlice, NPArray.rowSlice]

/-- Witness for C2 at index 0 of the concrete scenario object. -/
theorem c2_witness :
    0 ≤ (0 : Int) ∧ (0 : Int) < (opAB.productCols : Int) ∧
    (0 : Int) < (opAB.productRows : Int) ∧
    (opAB.getProductColSum 0 =
      Except.ok (.int (((List.range opAB.product.rows).map
        (fun t => opAB.product.entry t (0 : Int).toNat)).sum)) ∧
     opAB.getProductColProd 0 =
      Except.ok (.int (((List.range opAB.product.rows).map
        (fun t => opAB.product.entry t (0 : Int).toNat)).prod)) ∧
     opAB.getProductRowSum 0 =
      Except.ok (.int (((List.range opAB.product.cols).map
        (fun t => opAB.product.entry (0 : Int).toNat t)).sum)) ∧
     opAB.getProductRowProd 0 =
      Except.ok (.int (((List.range opAB.product.cols).map
        (fun t => opAB.product.entry (0 : Int).toNat t)).prod))) :=
  ⟨by decide, by decide, by decide,
    c2_indexed_statistics opAB 0 0 (by decide) (by decide) (by decide) (by decide)⟩

/-- C3: the cumulative operations return a matrix of the shape of the product;
along columns (numpy axis 0) entry (i, j) aggregates product[t][j] for t up to
i, and along rows (axis 1) entry (i, j) aggregates product[i][t] for t up to j. -/
theorem c3_cumulative_statistics (name : String) (A B : NPArray) (op : MatrixOperation)
    (h : make name A B = Except.ok op) (i j : Nat)
    (hi : i < op.product.rows) (hj : j < op.product.cols) :
    (∃ M, op.getProductColCumSum = Except.ok (StatResult.mat M) ∧
      M.shape = op.product.shape ∧
      M.entry i j = ((List.range (i + 1)).map (fun t => op.product.entry t j)).sum) ∧
    (∃ M, op.getProductColCumProd = Except.ok (StatResult.mat M) ∧
      M.shape = op.product.shape ∧
      M.entry i j = ((List.range (i + 1)).map (fun t => op.product.entry t j)).prod) ∧
    (∃ M, op.getProductRowCumSum = Except.ok (StatResult.mat M) ∧
      M.shape = op.product.shape ∧
      M.entry i j = ((List.range (j + 1)).map (fun t => op.product.entry i t)).sum) ∧
    (∃ M, op.getProductRowCumProd = Except.ok (StatResult.mat M) ∧
      M.shape = op.product.shape ∧
      M.entry i j = ((List.range (j + 1)).map (fun t => op.product.entry i t)).prod) := by
  have hop := make_ok_elim h
  subst hop
  refine ⟨⟨cumsumAxis0 (matmul A B), rfl, rfl, ?_⟩,
          ⟨cumprodAxis0 (matmul A B), rfl, rfl, ?_⟩,
          ⟨cumsumAxis1 (matmul A B), rfl, rfl, ?_⟩,
          ⟨cumprodAxis1 (matmul A B), rfl, rfl, ?_⟩⟩
  · exact mkMat_entry _ _ _ i j hi hj
  · exact mkMat_entry _ _ _ i j hi hj
  · exact mkMat_entry _ _ _ i j hi hj
  · exact mkMat_entry _ _ _ i j hi hj

/-- Witness for C3 at entry (0, 0) of the concrete scenario object. -/
theorem c3_witness :
    make ("ops") matA matB = Except.ok opAB ∧
    0 < opAB.product.rows ∧ 0 < opAB.product.cols ∧
    ((∃ M, opAB.getProductColCumSum = Except.ok (StatResult.mat M) ∧
      M.shape = opAB.product.shape ∧
      M.entry 0 0 = ((List.range 1).map (fun t => opAB.product.entry t 0)).sum) ∧
     (∃ M, opAB.getProductColCumProd = Except.ok (StatResult.mat M) ∧
      M.shape = opAB.product.shape ∧
      M.entry 0 0 = ((List.range 1).map (fun t => opAB.product.entry t 0)).prod) ∧
     (∃ M, opAB.getProductRowCumSum = Except.ok (StatResult.mat M) ∧
      M.shape = opAB.product.shape ∧
      M.entry 0 0 = ((List.range 1).map (fun t => opAB.product.entry 0 t)).sum) ∧
     (∃ M, opAB.getProductRowCumProd = Except.ok (StatResult.mat M) ∧
      M.shape = opAB.product.shape ∧
      M.entry 0 0 = ((List.range 1).map (fun t => opAB.product.entry 0 t)).prod)) :=
  ⟨by decide, by decide, by decide,
    c3_cumulative_statistics ("ops") matA matB opAB (by decide) 0 0 (by decide) (by decide)⟩

/-- C4: an out-of-range index, negative or at least the bound, makes the four
indexed statistic operations return the out-of-bounds error carrying the
offending index and the bound, whose message reports both. -/
theorem c4_index_out_of_bounds (op : MatrixOperation) (ic ir : Int)
    (hc : ic < 0 ∨ (op.productCols : Int) ≤ ic)
    (hr : ir < 0 ∨ (op.productRows : Int) ≤ ir) :
    op.getProductColSum ic = Except.error (MatErr.colOutOfBounds ic op.productCols) ∧
    op.getProductColProd ic = Except.error (MatErr.colOutOfBounds ic op.productCols) ∧
    op.getProductRowSum ir = Except.error (MatErr.rowOutOfBounds ir op.productRows) ∧
    op.getProductRowProd ir = Except.error (MatErr.rowOutOfBounds ir op.productRows) ∧
    (MatErr.colOutOfBounds ic op.productCols).message =
      "Column number (" ++ (toString ic ++
        (") is out of bounds of product matrix. Must be in [0," ++
          (toString op.productCols ++ ")."))) ∧
    (MatErr.rowOutOfBounds ir op.productRows).message =
      "Row number (" ++ (toString ir ++
        (") is out of bounds of product matrix. Must be in [0," ++
          (toString op.productRows ++ ")."))) := by
  refine ⟨?_, ?_, ?_, ?_, rfl, rfl⟩ <;>
    simp [MatrixOperation.getProductColSum, MatrixOperation.getProductColProd,
      MatrixOperation.getProductRowSum, MatrixOperation.getProductRowProd,
      MatrixOperation.getProductStatistic, COL, ROW, hc, hr]

/-- Witness for C4: on the 3 by 2 product of the spec scenario, a column sum at
index 5 raises with bound 2 and the exact source message. -/
theorem c4_witness :
    ((5 : Int) < 0 ∨ (opAB.productCols : Int) ≤ 5) ∧ opAB.productCols = 2 ∧
    opAB.product.shape = [3, 2] ∧
    opAB.getProductColSum 5 = Except.error (MatErr.colOutOfBounds 5 opAB.productCols) ∧
    (MatErr.colOutOfBounds 5 opAB.productCols).message =
      "Column number (5) is out of bounds of product matrix. Must be in [0,2)." :=
  ⟨by decide, by decide, by decide,
    (c4_index_out_of_bounds opAB 5 5 (by decide) (by decide)).1, by decide⟩

/-- C5: construction validates matrixA fully before matrixB, with the
sub-checks in order dimensionality, emptiness, per-axis size bound, failing on
the first violation, and the three checks carry pairwise distinct messages. -/
theorem c5_validation_order (name : String) (A B : NPArray) :
    (A.ndim ≠ 2 → make name A B = Except.error (MatErr.badDims A.ndim ("first"))) ∧
    (A.ndim = 2 → npSize A = 0 →
      make name A B = Except.error (MatErr.emptyMatrix ("first"))) ∧
    (∀ e, A.ndim = 2 → npSize A ≠ 0 → checkDims ("first") 0 A.shape = Except.error e →
      make name A B = Except.error e) ∧
    (verifyMatrixProperties A ("first") = Except.ok () → B.ndim ≠ 2 →
      make name A B = Except.error (MatErr.badDims B.ndim ("second"))) ∧
    (verifyMatrixProperties A ("first") = Except.ok () → B.ndim = 2 → npSize B = 0 →
      make name A B = Except.error (MatErr.emptyMatrix ("second"))) ∧
    (∀ e, verifyMatrixProperties A ("first") = Except.ok () → B.ndim = 2 → npSize B ≠ 0 →
      checkDims ("second") 0 B.shape = Except.error e →
      make name A B = Except.error e) ∧
    (∀ d dim i o o2, (MatErr.badDims d o).message ≠ (MatErr.emptyMatrix o2).message ∧
      (MatErr.badDims d o).message ≠ (MatErr.badDimSize dim i o2).message ∧
      (MatErr.emptyMatrix o).message ≠ (MatErr.badDimSize dim i o2).message) := by
  refine ⟨?_, ?_, ?_, ?_, ?_, ?_, ?_⟩
  · intro hnd
    refine make_error_left ?_
    simp only [NPArray.ndim] at hnd
    simp [verifyMatrixProperties, NPArray.ndim, hnd]
  · intro hnd hsz
    refine make_error_left ?_
    simp only [NPArray.ndim] at hnd
    simp [verifyMatrixProperties, hnd, hsz]
  · intro e hnd hsz hck
    refine make_error_left ?_
    simp only [NPArray.ndim] at hnd
    simp [verifyMatrixProperties, hnd, hsz, hck]
  · intro hA hnd
    refine make_error_right hA ?_
    simp only [NPArray.ndim] at hnd
    simp [verifyMatrixProperties, NPArray.ndim, hnd]
  · intro hA hnd hsz
    refine make_error_right hA ?_
    simp only [NPArray.ndim] at hnd
    simp [verifyMatrixProperties, hnd, hsz]
  · intro e hA hnd hsz hck
    refine make_error_right hA ?_
    simp only [NPArray.ndim] at hnd
    simp [verifyMatrixProperties, hnd, hsz, hck]
  · intro d dim i o o2
    exact ⟨badDims_msg_ne_empty d o o2, badDims_msg_ne_badDimSize d dim i o o2,
      empty_msg_ne_badDimSize dim i o o2⟩

/-- Witness for C5: each validation branch at a concrete input, and the
distinctness of the three check messages at concrete values. -/
theorem c5_witness :
    make ("n") ⟨[3], [1, 2, 3]⟩ matB = Except.error (MatErr.badDims 1 ("first")) ∧
    make ("n") ⟨[0, 5], []⟩ matB = Except.error (MatErr.emptyMatrix ("first")) ∧
    make ("n") ⟨[11, 11], List.replicate 121 1⟩ matB =
      Except.error (MatErr.badDimSize 11 0 ("first")) ∧
    make ("n") matA ⟨[3], [1, 2, 3]⟩ = Except.error (MatErr.badDims 1 ("second")) ∧
    make ("n") matA ⟨[0, 5], []⟩ = Except.error (MatErr.emptyMatrix ("second")) ∧
    make ("n") matA ⟨[11, 11], List.replicate 121 1⟩ =
      Except.error (MatErr.badDimSize 11 0 ("second")) ∧
    ((MatErr.badDims 1 ("first")).message ≠ (MatErr.emptyMatrix ("first")).message ∧
     (MatErr.badDims 1 ("first")).message ≠ (MatErr.badDimSize 11 0 ("first")).message ∧
     (MatErr.emptyMatrix ("first")).message ≠ (MatErr.badDimSize 11 0 ("first")).message) :=
  ⟨(c5_validation_order ("n") ⟨[3], [1, 2, 3]⟩ matB).1 (by decide),
   (c5_validation_order ("n") ⟨[0, 5], []⟩ matB).2.1 (by decide) (by decide),
   (c5_validation_order ("n") ⟨[11, 11], List.replicate 121 1⟩ matB).2.2.1
     (MatErr.badDimSize 11 0 ("first")) (by decide) (by decide) (by decide),
   (c5_validation_order ("n") matA ⟨[3], [1, 2, 3]⟩).2.2.2.1 (by decide) (by decide),
   (c5_validation_order ("n") matA ⟨[0, 5], []⟩).2.2.2.2.1 (by decide) (by decide)
     (by decide),
   (c5_validation_order ("n") matA ⟨[11, 11], List.replicate 121 1⟩).2.2.2.2.2.1
     (MatErr.badDimSize 11 0 ("second")) (by decide) (by decide) (by decide) (by decide),
   (c5_validation_order ("n") matA matB).2.2.2.2.2.2 1 11 0 ("first") ("first")⟩

/-- C6: individually valid matrices whose inner dimensions disagree make the
construction fail with the shape-mismatch error, whose message carries both
mismatched dimensions; no product object is produced. -/
theorem c6_shape_mismatch (name : String) (A B : NPArray) (ra ka rb cb : Nat)
    (hA : A.shape = [ra, ka]) (hB : B.shape = [rb, cb])
    (hra1 : 1 ≤ ra) (hra2 : ra ≤ 10) (hka1 : 1 ≤ ka) (hka2 : ka ≤ 10)
    (hrb1 : 1 ≤ rb) (hrb2 : rb ≤ 10) (hcb1 : 1 ≤ cb) (hcb2 : cb ≤ 10)
    (hne : ka ≠ rb) :
    make name A B = Except.error (MatErr.shapeMismatch ka rb) ∧
    (MatErr.shapeMismatch ka rb).message =
      "Invalid matrix sizes to allow for multiplication. First  matrix columns (" ++
        (toString ka ++ (") does not match second  matrix rows (" ++
          (toString rb ++ ")."))) := by
  have h1 := verify_ok A ("first") ra ka hA hra1 hra2 hka1 hka2
  have h2 := verify_ok B ("second") rb cb hB hrb1 hrb2 hcb1 hcb2
  refine ⟨?_, rfl⟩
  unfold make
  rw [h1, h2]
  simp [Bind.bind, Except.bind, hA, hB, hne]

/-- Witness for C6: a 2 by 2 first matrix against a 3 by 3 second matrix, with
the message mentioning 2 and 3. -/
theorem c6_witness :
    make ("n") ⟨[2, 2], [1, 0, 0, 1]⟩ ⟨[3, 3], [1, 0, 0, 0, 1, 0, 0, 0, 1]⟩ =
      Except.error (MatErr.shapeMismatch 2 3) ∧
    (MatErr.shapeMismatch 2 3).message =
      "Invalid matrix sizes to allow for multiplication. First  matrix columns (2)" ++
        " does not match second  matrix rows (3)." :=
  ⟨(c6_shape_mismatch ("n") ⟨[2, 2], [1, 0, 0, 1]⟩ ⟨[3, 3], [1, 0, 0, 0, 1, 0, 0, 0, 1]⟩
      2 2 3 3 rfl rfl (by decide) (by decide) (by decide) (by decide) (by decide)
      (by decide) (by decide) (by decide) (by decide)).1, by decide⟩

/-- C7: a statistic call is a pure query: the receiver's post-state keeps every
attribute, and a later call on it with an in-bounds index succeeds. -/
theorem c7_pure_query (op : MatrixOperation) (f : StatKind) (d : Option Nat)
    (i : Option Int) :
    (op.getProductStatisticSt f d i).2 = op ∧
    (op.getProductStatisticSt f d i).2.product = op.product ∧
    (op.getProductStatisticSt f d i).2.matrixA = op.matrixA ∧
    (op.getProductStatisticSt f d i).2.matrixB = op.matrixB ∧
    (op.getProductStatisticSt f d i).2.name = op.name ∧
    (op.getProductStatisticSt f d i).2.valid = op.valid ∧
    (∀ j : Int, 0 ≤ j → j < ((op.getProductStatisticSt f d i).2.productCols : Int) →
      ∃ v, (op.getProductStatisticSt f d i).2.getProductColSum j = Except.ok v) ∧
    (∀ j : Int, 0 ≤ j → j < ((op.getProductStatisticSt f d i).2.productRows : Int) →
      ∃ v, (op.getProductStatisticSt f d i).2.getProductRowSum j = Except.ok v) := by
  refine ⟨rfl, rfl, rfl, rfl, rfl, rfl, ?_, ?_⟩
  · intro j hj0 hjc
    have hjc' : j < (op.productCols : Int) := hjc
    have hnc : ¬ (j < 0 ∨ (op.productCols : Int) ≤ j) := by omega
    refine ⟨applyStat StatKind.sum (NPData.slice (op.product.colSlice j.toNat)) none, ?_⟩
    show op.getProductColSum j = _
    simp [MatrixOperation.getProductColSum, MatrixOperation.getProductStatistic, COL, hnc]
  · intro j hj0 hjr
    have hjr' : j < (op.productRows : Int) := hjr
    have hnr : ¬ (j < 0 ∨ (op.productRows : Int) ≤ j) := by omega
    refine ⟨applyStat StatKind.sum (NPData.slice (op.product.rowSlice j.toNat)) none, ?_⟩
    show op.getProductRowSum j = _
    simp [MatrixOperation.getProductRowSum, MatrixOperation.getProductStatistic, COL, ROW, hnr]

/-- Witness for C7: after an out-of-bounds call on the scenario object the
state is unchanged and a corrected in-bounds call succeeds. -/
theorem c7_witness :
    (opAB.getProductStatisticSt StatKind.sum (some COL) (some 5)).1 =
      Except.error (MatErr.colOutOfBounds 5 2) ∧
    (opAB.getProductStatisticSt StatKind.sum (some COL) (some 5)).2 = opAB ∧
    (0 : Int) < ((opAB.getProductStatisticSt StatKind.sum (some COL) (some 5)).2.productCols : Int) ∧
    (∃ v, (opAB.getProductStatisticSt StatKind.sum (some COL) (some 5)).2.getProductColSum 0 =
      Except.ok v) :=
  ⟨by decide,
   (c7_pure_query opAB StatKind.sum (some COL) (some 5)).1,
   by decide,
   (c7_pure_query opAB StatKind.sum (some COL) (some 5)).2.2.2.2.2.2.1 0
     (by decide) (by decide)⟩

/-- C8: the concrete spec scenario: the product of the given 3 by 3 and 3 by 2
matrices and all the listed statistic values. -/
theorem c8_concrete_scenario :
    make ("ops") matA matB = Except.ok opAB ∧
    opAB.product.data = [25, 11, 58, 32, 91, 53] ∧
    opAB.product.shape = [3, 2] ∧
    opAB.getProductColSum 0 = Except.ok (StatResult.int 174) ∧
    opAB.getProductColProd 1 = Except.ok (StatResult.int 18656) ∧
    opAB.getProductRowSum 0 = Except.ok (StatResult.int 36) ∧
    opAB.getProductTotalMean = Except.ok (StatResult.rat 45) ∧
    opAB.getProductTotalMedian = Except.ok (StatResult.rat 42.5) ∧
    opAB.getProductTotalMin = Except.ok (StatResult.int 11) ∧
    opAB.getProductTotalMax = Except.ok (StatResult.int 91) ∧
    opAB.getProductTotalSum = Except.ok (StatResult.int 270) ∧
    opAB.getProductTotalProd = Except.ok (StatResult.int 2461659200) := by
  refine ⟨by decide, by decide, by decide, by decide, by decide, by decide, ?_, ?_,
    by decide, by decide, by decide, by decide⟩
  · have hd : opAB.product.data = [25, 11, 58, 32, 91, 53] := by decide
    have h1 : opAB.getProductTotalMean =
        Except.ok (StatResult.rat (npMeanList opAB.product.data)) := rfl
    rw [h1, hd]
    norm_num [npMeanList]
  · have hd : opAB.product.data = [25, 11, 58, 32, 91, 53] := by decide
    have h1 : opAB.getProductTotalMedian =
        Except.ok (StatResult.rat (npMedianList opAB.product.data)) := rfl
    have hs : List.insertionSort (fun a b => a ≤ b) ([25, 11, 58, 32, 91, 53] : List Int) =
        [11, 25, 32, 53, 58, 91] := by decide
    rw [h1, hd]
    simp only [npMedianList, hs]
    norm_num [List.getD]

/-- C9: with direction None the dispatch ignores the index entirely, performs
no bounds check, and returns the statistic of the whole product matrix. -/
theorem c9_direction_none_ignores_index (op : MatrixOperation) (f : StatKind)
    (i : Option Int) :
    op.getProductStatistic f none i =
      Except.ok (applyStat f (NPData.whole op.product) none) := rfl

/-- C10: when both axes of a 2-D matrix exceed 10, validation reports the
oversized axis of lowest index, dimension 0, together with its size. -/
theorem c10_lowest_oversized_axis (ord : String) (m : NPArray) (d0 d1 : Nat)
    (hsh : m.shape = [d0, d1]) (h0 : 10 < d0) (h1 : 10 < d1) :
    verifyMatrixProperties m ord = Except.error (MatErr.badDimSize d0 0 ord) := by
  have hd0 : d0 ≠ 0 := by omega
  have hd1 : d1 ≠ 0 := by omega
  simp [verifyMatrixProperties, npSize, hsh, checkDims, h0, hd0, hd1]

/-- Witness for C10 at an 11 by 11 matrix. -/
theorem c10_witness :
    (⟨[11, 11], List.replicate 121 1⟩ : NPArray).shape = [11, 11] ∧ 10 < 11 ∧
    verifyMatrixProperties ⟨[11, 11], List.replicate 121 1⟩ ("first") =
      Except.error (MatErr.badDimSize 11 0 ("first")) :=
  ⟨rfl, by decide,
    c10_lowest_oversized_axis ("first") ⟨[11, 11], List.replicate 121 1⟩ 11 11
      rfl (by decide) (by decide)⟩

end MatOp
